import Mathlib

set_option linter.unusedVariables false

/-!
Shallow embedding of the booking/discount saga system
(services/order/main.go, services/discount/main.go, pkg/events/events.go).

Modelling conventions:
* Go `time.Time` values are modelled as `Nat` (seconds since epoch); the
  stores use them only for ordering and date-key derivation.
* Go `float64` prices (`base_price`, `discount_percent`, `final_price`,
  `Service.Price`) are never computed on by the core services, only
  passed through, so they are modelled by `Int` stand-ins.
* The Firestore events collection is the list `DiscountState.events`
  (append order = list order); the daily_quotas collection is an
  association list from date key to the int64 `count` field.
* A Firestore transaction commits its reads and writes atomically; each
  Go `RunTransaction` body is therefore one Lean function from state to
  state (the store serialises concurrent transactions, per the contract
  in the spec).
-/

/-- EventType constants from pkg/events/events.go. -/
def EventTypeOrderCreated : String := "OrderCreated"

/-- EventType constant for a successful reservation decision. -/
def EventTypeDiscountReserved : String := "DiscountReserved"

/-- EventType constant for a denied reservation decision. -/
def EventTypeDiscountRejected : String := "DiscountRejected"

/-- EventType constant for the compensation (release) event. -/
def EventTypeDiscountRelease : String := "DiscountRelease"

/-- BaseEvent: common fields of all events (pkg/events/events.go). -/
structure BaseEvent where
  trace_id : String
  type : String
  timestamp : Nat
deriving DecidableEq

/-- Service line item as stored in events (pkg/events/events.go). -/
structure Service where
  name : String
  price : Int
deriving DecidableEq

/-- OrderCreated event payload (pkg/events/events.go). -/
structure OrderCreated where
  base : BaseEvent
  order_id : String
  user_id : String
  name : String
  gender : String
  dob : String
  selected_services : List Service
  base_price : Int
  is_r1_eligible : Bool
  discount_percent : Int
  final_price : Int
deriving DecidableEq

/-- DiscountReserved event payload (pkg/events/events.go). -/
structure DiscountReserved where
  base : BaseEvent
  order_id : String
  status : String
deriving DecidableEq

/-- DiscountRejected event payload (pkg/events/events.go). -/
structure DiscountRejected where
  base : BaseEvent
  order_id : String
  status : String
  reason : String
deriving DecidableEq

/-- DiscountRelease event payload (pkg/events/events.go). -/
structure DiscountRelease where
  base : BaseEvent
  order_id : String
  reason : String
deriving DecidableEq

/-- A document of the events collection, as one of the four typed payloads
the services write. -/
inductive StoredEvent where
  | orderCreated (e : OrderCreated)
  | discountReserved (e : DiscountReserved)
  | discountRejected (e : DiscountRejected)
  | discountRelease (e : DiscountRelease)
deriving DecidableEq

/-- The order_id field of a stored event document (present on all four). -/
def StoredEvent.orderIdField : StoredEvent → String
  | .orderCreated e => e.order_id
  | .discountReserved e => e.order_id
  | .discountRejected e => e.order_id
  | .discountRelease e => e.order_id

/-- The type field of a stored event document. -/
def StoredEvent.typeField : StoredEvent → String
  | .orderCreated e => e.base.type
  | .discountReserved e => e.base.type
  | .discountRejected e => e.base.type
  | .discountRelease e => e.base.type

/-- Durable state seen by the discount service: the events collection and
the daily_quotas collection (date key to int64 count). -/
structure DiscountState where
  events : List StoredEvent
  quotas : List (String × Int)
deriving DecidableEq

/-- Lookup of a quota document by date key. -/
def qlookup : List (String × Int) → String → Option Int
  | [], _ => none
  | (k', c) :: rest, k => if k' = k then some c else qlookup rest k

/-- Write of the count field of a quota document (tx.Set with MergeAll:
creates the document when absent, replaces the count when present). -/
def setQuota : List (String × Int) → String → Int → List (String × Int)
  | [], k, n => [(k, n)]
  | (k', c) :: rest, k, n =>
    if k' = k then (k, n) :: rest else (k', c) :: setQuota rest k n

/-- The counter value the service reads for a date key: an absent document
is treated as zero (services/discount/main.go lines 128-140). -/
def countFor (st : DiscountState) (k : String) : Int :=
  (qlookup st.quotas k).getD 0

/-- QuotaLimit = 100 (services/discount/main.go). -/
def QuotaLimit : Int := 100

/-- ISTOffset = 5h30m, in seconds (services/discount/main.go). -/
def ISTOffset : Nat := 5 * 3600 + 30 * 60

/-- Date key under the fixed IST offset. Go formats the shifted time as
"2006-01-02"; we render the shifted day number, which is the same
key function up to an injective renaming of day strings. -/
def dateKeyIST (now : Nat) : String :=
  toString ((now + ISTOffset) / 86400)

/-- Predicate of the idempotency query: a decision event correlated to the
given order id (Where order_id == id, type in [Reserved, Rejected]). -/
def isDecisionFor (orderID : String) (ev : StoredEvent) : Bool :=
  ev.orderIdField == orderID &&
    (ev.typeField == EventTypeDiscountReserved ||
     ev.typeField == EventTypeDiscountRejected)

/-- checkDecisionExists (services/discount/main.go lines 104-117): true
when some decision event correlated to the order id is in the store. -/
def checkDecisionExists (events : List StoredEvent) (orderID : String) : Bool :=
  events.any (isDecisionFor orderID)

/-- Number of decision events correlated to an order id. -/
def decisionsFor (events : List StoredEvent) (orderID : String) : Nat :=
  (events.filter (isDecisionFor orderID)).length

/-- runQuotaTransaction (services/discount/main.go lines 119-184): inside
one transaction, read the count for the current IST date key (absent
document, and a document without an int64 count field, read as zero),
then either increment and append a DiscountReserved event, or leave the
counter unchanged and append a DiscountRejected event with the fixed
reason; both writes commit atomically. -/
def runQuotaTransaction (now : Nat) (event : OrderCreated) (st : DiscountState) : DiscountState :=
  let today := dateKeyIST now
  let currentCount := countFor st today
  if currentCount < QuotaLimit then
    { quotas := setQuota st.quotas today (currentCount + 1),
      events := st.events ++
        [StoredEvent.discountReserved
          { base := { trace_id := event.base.trace_id,
                      type := EventTypeDiscountReserved, timestamp := now },
            order_id := event.order_id, status := "Approved" }] }
  else
    { quotas := st.quotas,
      events := st.events ++
        [StoredEvent.discountRejected
          { base := { trace_id := event.base.trace_id,
                      type := EventTypeDiscountRejected, timestamp := now },
            order_id := event.order_id, status := "Rejected",
            reason := "Daily discount quota reached. Please try again tomorrow." }] }

/-- processOrderEvent (services/discount/main.go lines 72-102), after the
document has been decoded: skip non-eligible orders, skip orders that
already have a decision, otherwise run the quota transaction. -/
def processOrderEvent (now : Nat) (event : OrderCreated) (st : DiscountState) : DiscountState :=
  if !event.is_r1_eligible then st
  else if checkDecisionExists st.events event.order_id then st
  else runQuotaTransaction now event st

/-- processReleaseEvent (services/discount/main.go lines 186-236), after
decoding: inside one transaction, read the quota document for the
current IST date key (not any date carried by the event); when absent,
or when the count is not positive, commit nothing; otherwise decrement
the count by one. The event payload is not consulted. -/
def processReleaseEvent (now : Nat) (event : DiscountRelease) (st : DiscountState) : DiscountState :=
  let today := dateKeyIST now
  match qlookup st.quotas today with
  | none => st
  | some count =>
    if count > 0 then
      { quotas := setQuota st.quotas today (count - 1), events := st.events }
    else st

/-- One iteration of the discount service subscription loop on a decoded
event (the subscription filter delivers only OrderCreated and
DiscountRelease documents). -/
def discountStep (now : Nat) (ev : StoredEvent) (st : DiscountState) : DiscountState :=
  match ev with
  | .orderCreated e => processOrderEvent now e st
  | .discountRelease e => processReleaseEvent now e st
  | _ => st

/-- The discount service processing a sequence of delivered events, each
with the wall-clock time at which it is handled. -/
def runLedger (steps : List (Nat × StoredEvent)) (st : DiscountState) : DiscountState :=
  steps.foldl (fun s p => discountStep p.1 p.2 s) st

/-- Processing a batch of order events at a fixed time (hence all against
the same date key). -/
def processOrders (now : Nat) (reqs : List OrderCreated) (st : DiscountState) : DiscountState :=
  reqs.foldl (fun s e => processOrderEvent now e s) st

/-- Executing the release handler n times on the same day. -/
def releaseTimes (now : Nat) (r : DiscountRelease) : Nat → DiscountState → DiscountState
  | 0, st => st
  | n + 1, st => releaseTimes now r n (processReleaseEvent now r st)

/-- Whether a stored event is a DiscountReserved (grant) event. -/
def isReservedEvent : StoredEvent → Bool
  | .discountReserved _ => true
  | _ => false

/-- Number of grant events in the store. -/
def reservedCount (events : List StoredEvent) : Nat :=
  (events.filter isReservedEvent).length

/-- The committed-state invariant of the daily counters. -/
def QuotaInv (st : DiscountState) : Prop :=
  ∀ k c, qlookup st.quotas k = some c → 0 ≤ c ∧ c ≤ QuotaLimit

/-!
Order service (services/order/main.go).
-/

/-- Request-side service line item (services/order/main.go). -/
structure ReqService where
  name : String
  price : Int
deriving DecidableEq

/-- OrderRequest: the decoded HTTP request body (services/order/main.go). -/
structure OrderRequest where
  user_id : String
  name : String
  gender : String
  dob : String
  selected_services : List ReqService
  base_price : Int
  is_r1_eligible : Bool
  discount_percent : Int
  final_price : Int
  simulate_failure : Bool
deriving DecidableEq

/-- OrderResponse: the JSON body the handler writes. -/
structure OrderResponse where
  order_id : String
  status : String
  message : String
deriving DecidableEq

/-- What the handler writes back: a JSON OrderResponse with an HTTP code,
or a plain-text http.Error. -/
inductive HandlerOutput where
  | json (httpCode : Nat) (resp : OrderResponse)
  | httpError (httpCode : Nat) (body : String)
deriving DecidableEq

/-- The decision delivered on the pending-request channel by
listenForDecisions. -/
inductive Decision where
  | reserved (e : DiscountReserved)
  | rejected (e : DiscountRejected)
deriving DecidableEq

/-- convertToEventServices (services/order/main.go lines 216-222). -/
def convertToEventServices (services : List ReqService) : List Service :=
  services.map fun s => { name := s.name, price := s.price }

/-- Stand-in for the Go format of a float64 price; prices are only passed
through, so any injective rendering is faithful for these claims. -/
def fmtPrice (p : Int) : String :=
  toString p

/-- The OrderCreated event the handler publishes (services/order/main.go
lines 133-149). -/
def mkOrderCreated (req : OrderRequest) (orderID traceID : String) (now : Nat) : OrderCreated :=
  { base := { trace_id := traceID, type := EventTypeOrderCreated, timestamp := now },
    order_id := orderID, user_id := req.user_id, name := req.name,
    gender := req.gender, dob := req.dob,
    selected_services := convertToEventServices req.selected_services,
    base_price := req.base_price, is_r1_eligible := req.is_r1_eligible,
    discount_percent := req.discount_percent, final_price := req.final_price }

/-- handleOrder (services/order/main.go lines 79-214), shallowly embedded:
the generated orderID/traceID, the wall clock, whether the event append
succeeds, and what (if anything) arrives on the response channel before
the 10 second timeout are explicit inputs; the result is the HTTP output
together with the list of events this handler appends to the store. -/
def handleOrder (req : OrderRequest) (orderID traceID : String) (now : Nat)
    (appendOk : Bool) (arrival : Option Decision) : HandlerOutput × List StoredEvent :=
  if !req.is_r1_eligible then
    if req.simulate_failure then
      (.json 500 { order_id := orderID, status := "FAILED",
                   message := "Payment processing failed (simulated)." }, [])
    else
      (.json 200 { order_id := orderID, status := "CONFIRMED",
                   message := "Booking confirmed! Total: ₹" ++ fmtPrice req.final_price
                     ++ " (No discount applied)" }, [])
  else
    let event := mkOrderCreated req orderID traceID now
    if !appendOk then
      (.httpError 500 "Internal Server Error", [])
    else
      match arrival with
      | some (.reserved _) =>
        if req.simulate_failure then
          (.json 500 { order_id := orderID, status := "FAILED",
                       message := "Payment processing failed. Discount quota has been released." },
           [StoredEvent.orderCreated event,
            StoredEvent.discountRelease
              { base := { trace_id := traceID, type := EventTypeDiscountRelease, timestamp := now },
                order_id := orderID,
                reason := "Payment Processing Failed (Simulated Failure)" }])
        else
          (.json 200 { order_id := orderID, status := "CONFIRMED",
                       message := "Booking confirmed! Final price: ₹" ++ fmtPrice req.final_price
                         ++ " (12% discount applied)" },
           [StoredEvent.orderCreated event])
      | some (.rejected d) =>
        (.json 429 { order_id := orderID, status := "REJECTED", message := d.reason },
         [StoredEvent.orderCreated event])
      | none =>
        (.httpError 504 "Timeout waiting for discount service",
         [StoredEvent.orderCreated event])

/-!
Raw document layer: the subscription loops receive Firestore documents as
dynamically typed field maps and dispatch on unchecked type assertions
(services/discount/main.go lines 58-68, services/order/main.go lines
242-264). DataTo decoding failures are an error path; a failed single
result type assertion is a Go runtime panic.
-/

/-- A dynamically typed Firestore value (the kinds this repo stores). -/
inductive FsVal where
  | str (s : String)
  | int (n : Int)
  | float (q : Int)
  | bool (b : Bool)
  | tstamp (t : Nat)
  | arr (vs : List FsVal)
  | fmap (m : List (String × FsVal))

/-- A raw document: the field map returned by Doc.Data(). -/
abbrev FsDoc := List (String × FsVal)

/-- Field lookup in a raw document (a missing field reads as a nil
interface value). -/
def getField (doc : FsDoc) (k : String) : Option FsVal :=
  match doc with
  | [] => none
  | (k', v) :: rest => if k' = k then some v else getField rest k

/-- A Go runtime panic raised in the subscription loop. -/
inductive Panic where
  | typeAssertion
deriving DecidableEq

/-- Single-result string type assertion, v.(string): panics unless the
value is a string. -/
def asString (v : Option FsVal) : Except Panic String :=
  match v with
  | some (.str s) => .ok s
  | _ => .error .typeAssertion

/-- DataTo semantics for a string field: missing fields keep the zero
value, a value of the wrong type is a decode error. -/
def fieldStr (doc : FsDoc) (k : String) : Except String String :=
  match getField doc k with
  | none => .ok ""
  | some (.str s) => .ok s
  | some _ => .error k

/-- DataTo semantics for a bool field. -/
def fieldBool (doc : FsDoc) (k : String) : Except String Bool :=
  match getField doc k with
  | none => .ok false
  | some (.bool b) => .ok b
  | some _ => .error k

/-- DataTo semantics for a float64 field (numeric values convert). -/
def fieldFloat (doc : FsDoc) (k : String) : Except String Int :=
  match getField doc k with
  | none => .ok 0
  | some (.float q) => .ok q
  | some (.int n) => .ok n
  | some _ => .error k

/-- DataTo semantics for a timestamp field. -/
def fieldTime (doc : FsDoc) (k : String) : Except String Nat :=
  match getField doc k with
  | none => .ok 0
  | some (.tstamp t) => .ok t
  | some _ => .error k

/-- Decoding one element of a selected_services array. -/
def decodeService (v : FsVal) : Except String Service :=
  match v with
  | .fmap m => do
    let nm ← fieldStr m "name"
    let pr ← fieldFloat m "price"
    .ok { name := nm, price := pr }
  | _ => .error "service"

/-- DataTo semantics for the selected_services field. -/
def fieldServices (doc : FsDoc) (k : String) : Except String (List Service) :=
  match getField doc k with
  | none => .ok []
  | some (.arr vs) => vs.mapM decodeService
  | some _ => .error k

/-- DataTo into an OrderCreated struct. -/
def decodeOrderCreated (doc : FsDoc) : Except String OrderCreated := do
  let tid ← fieldStr doc "trace_id"
  let ty ← fieldStr doc "type"
  let ts ← fieldTime doc "timestamp"
  let oid ← fieldStr doc "order_id"
  let uid ← fieldStr doc "user_id"
  let nm ← fieldStr doc "name"
  let g ← fieldStr doc "gender"
  let dob ← fieldStr doc "dob"
  let svcs ← fieldServices doc "selected_services"
  let bp ← fieldFloat doc "base_price"
  let el ← fieldBool doc "is_r1_eligible"
  let dp ← fieldFloat doc "discount_percent"
  let fp ← fieldFloat doc "final_price"
  .ok { base := { trace_id := tid, type := ty, timestamp := ts },
        order_id := oid, user_id := uid, name := nm, gender := g, dob := dob,
        selected_services := svcs, base_price := bp, is_r1_eligible := el,
        discount_percent := dp, final_price := fp }

/-- DataTo into a DiscountRelease struct. -/
def decodeDiscountRelease (doc : FsDoc) : Except String DiscountRelease := do
  let tid ← fieldStr doc "trace_id"
  let ty ← fieldStr doc "type"
  let ts ← fieldTime doc "timestamp"
  let oid ← fieldStr doc "order_id"
  let rsn ← fieldStr doc "reason"
  .ok { base := { trace_id := tid, type := ty, timestamp := ts },
        order_id := oid, reason := rsn }

/-- DataTo into a DiscountReserved struct. -/
def decodeDiscountReserved (doc : FsDoc) : Except String DiscountReserved := do
  let tid ← fieldStr doc "trace_id"
  let ty ← fieldStr doc "type"
  let ts ← fieldTime doc "timestamp"
  let oid ← fieldStr doc "order_id"
  let stv ← fieldStr doc "status"
  .ok { base := { trace_id := tid, type := ty, timestamp := ts },
        order_id := oid, status := stv }

/-- DataTo into a DiscountRejected struct. -/
def decodeDiscountRejected (doc : FsDoc) : Except String DiscountRejected := do
  let tid ← fieldStr doc "trace_id"
  let ty ← fieldStr doc "type"
  let ts ← fieldTime doc "timestamp"
  let oid ← fieldStr doc "order_id"
  let stv ← fieldStr doc "status"
  let rsn ← fieldStr doc "reason"
  .ok { base := { trace_id := tid, type := ty, timestamp := ts },
        order_id := oid, status := stv, reason := rsn }

/-- processOrderEvent on a raw document: decode failures are logged and
dropped (state unchanged). -/
def processOrderDoc (now : Nat) (doc : FsDoc) (st : DiscountState) : DiscountState :=
  match decodeOrderCreated doc with
  | .error _ => st
  | .ok e => processOrderEvent now e st

/-- processReleaseEvent on a raw document: decode failures are logged and
dropped (state unchanged). -/
def processReleaseDoc (now : Nat) (doc : FsDoc) (st : DiscountState) : DiscountState :=
  match decodeDiscountRelease doc with
  | .error _ => st
  | .ok e => processReleaseEvent now e st

/-- The discount service subscription filter: only documents whose type
field is the string OrderCreated or DiscountRelease are delivered
(Where type in [...], services/discount/main.go lines 41-44). -/
def discountFilter (doc : FsDoc) : Bool :=
  match getField doc "type" with
  | some (.str s) => s == EventTypeOrderCreated || s == EventTypeDiscountRelease
  | _ => false

/-- One body iteration of the discount service loop on a delivered raw
document (services/discount/main.go lines 58-68): the type field is read
with an unchecked string assertion, then dispatched. -/
def discountStepDoc (now : Nat) (doc : FsDoc) (st : DiscountState) : Except Panic DiscountState :=
  match asString (getField doc "type") with
  | .error p => .error p
  | .ok t =>
    if t = EventTypeOrderCreated then .ok (processOrderDoc now doc st)
    else if t = EventTypeDiscountRelease then .ok (processReleaseDoc now doc st)
    else .ok st

/-- The order service subscription filter: documents whose type field is
the string DiscountReserved or DiscountRejected (services/order/main.go
lines 225-228). -/
def decisionFilter (doc : FsDoc) : Bool :=
  match getField doc "type" with
  | some (.str s) => s == EventTypeDiscountReserved || s == EventTypeDiscountRejected
  | _ => false

/-- Decode with the DataTo error ignored, as listenForDecisions does: on
failure the zero-valued struct is sent. -/
def decodeReservedOrZero (doc : FsDoc) : DiscountReserved :=
  match decodeDiscountReserved doc with
  | .ok e => e
  | .error _ =>
    { base := { trace_id := "", type := "", timestamp := 0 }, order_id := "", status := "" }

/-- Decode with the DataTo error ignored, zero struct on failure. -/
def decodeRejectedOrZero (doc : FsDoc) : DiscountRejected :=
  match decodeDiscountRejected doc with
  | .ok e => e
  | .error _ =>
    { base := { trace_id := "", type := "", timestamp := 0 }, order_id := "",
      status := "", reason := "" }

/-- One body iteration of listenForDecisions (services/order/main.go lines
242-264) on a delivered raw document: the type and order_id fields are
read with unchecked string assertions; when the order id has a pending
channel, the decoded decision is routed to it, otherwise the document is
dropped. -/
def listenStepDoc (doc : FsDoc) (registered : List String) :
    Except Panic (Option (String × Decision)) :=
  match asString (getField doc "type") with
  | .error p => .error p
  | .ok t =>
    match asString (getField doc "order_id") with
    | .error p => .error p
    | .ok oid =>
      if registered.contains oid then
        if t = EventTypeDiscountReserved then
          .ok (some (oid, .reserved (decodeReservedOrZero doc)))
        else
          .ok (some (oid, .rejected (decodeRejectedOrZero doc)))
      else .ok none

/-- Grant count plus remaining slack in the counter (proof artifact for
the quota cap argument). -/
def quotaSlack (st : DiscountState) (k : String) : Nat :=
  (QuotaLimit - countFor st k).toNat

/-!
Concrete sample values used by the witnesses.
-/

/-- A sample eligible order event (scenario A of the spec: base price 1300,
12 percent discount, final price 1144). -/
def sampleOrder : OrderCreated :=
  { base := { trace_id := "trace-1", type := EventTypeOrderCreated, timestamp := 0 },
    order_id := "order-1", user_id := "u1", name := "Asha", gender := "F",
    dob := "1990-01-01", selected_services := [{ name := "Consultation", price := 1300 }],
    base_price := 1300, is_r1_eligible := true, discount_percent := 12,
    final_price := 1144 }

/-- A sample non-eligible order event. -/
def sampleOrderNE : OrderCreated :=
  { base := { trace_id := "trace-2", type := EventTypeOrderCreated, timestamp := 0 },
    order_id := "order-2", user_id := "u2", name := "Ben", gender := "M",
    dob := "1991-02-02", selected_services := [], base_price := 500,
    is_r1_eligible := false, discount_percent := 0, final_price := 500 }

/-- A sample grant decision event for sampleOrder. -/
def sampleReserved : DiscountReserved :=
  { base := { trace_id := "trace-1", type := EventTypeDiscountReserved, timestamp := 1 },
    order_id := "order-1", status := "Approved" }

/-- A sample denial decision event. -/
def sampleRejected : DiscountRejected :=
  { base := { trace_id := "trace-1", type := EventTypeDiscountRejected, timestamp := 1 },
    order_id := "order-1", status := "Rejected",
    reason := "Daily discount quota reached. Please try again tomorrow." }

/-- A sample release (compensation) event. -/
def sampleRelease : DiscountRelease :=
  { base := { trace_id := "trace-1", type := EventTypeDiscountRelease, timestamp := 2 },
    order_id := "order-1", reason := "Payment Processing Failed (Simulated Failure)" }

/-- A second sample release event with a different payload. -/
def sampleRelease2 : DiscountRelease :=
  { base := { trace_id := "trace-9", type := EventTypeDiscountRelease, timestamp := 9 },
    order_id := "ghost-order", reason := "other" }

/-- The empty store. -/
def emptyState : DiscountState := ⟨[], []⟩

/-- A store whose counter for the date key of time 0 is at the limit. -/
def fullState : DiscountState := ⟨[], [("0", 100)]⟩

/-- A store whose counter for the date key of time 0 is 5. -/
def midState : DiscountState := ⟨[], [("0", 5)]⟩

/-- A store whose counter for the date key of time 0 is 0. -/
def zeroState : DiscountState := ⟨[], [("0", 0)]⟩

/-- A store already holding a decision for order-1. -/
def decidedState : DiscountState := ⟨[StoredEvent.discountReserved sampleReserved], []⟩

/-- A sample eligible request with the failure simulation flag set. -/
def sampleFailRequest : OrderRequest :=
  { user_id := "u1", name := "Asha", gender := "F", dob := "1990-01-01",
    selected_services := [{ name := "Consultation", price := 1650 }],
    base_price := 1650, is_r1_eligible := true, discount_percent := 12,
    final_price := 1452, simulate_failure := true }

/-- A sample eligible request without the failure simulation flag. -/
def sampleOkRequest : OrderRequest :=
  { user_id := "u1", name := "Asha", gender := "F", dob := "1990-01-01",
    selected_services := [{ name := "Consultation", price := 1300 }],
    base_price := 1300, is_r1_eligible := true, discount_percent := 12,
    final_price := 1144, simulate_failure := false }

/-- A sample non-eligible request. -/
def sampleNERequest : OrderRequest :=
  { user_id := "u2", name := "Ben", gender := "M", dob := "1991-02-02",
    selected_services := [], base_price := 500, is_r1_eligible := false,
    discount_percent := 0, final_price := 500, simulate_failure := false }

/-!
Helper lemmas.
-/

/-- Reading back a quota write. -/
theorem qlookup_setQuota (qs : List (String × Int)) (k : String) (n : Int) (k' : String) :
    qlookup (setQuota qs k n) k' = if k = k' then some n else qlookup qs k' := by
  induction qs with
  | nil =>
    by_cases h : k = k' <;> simp [setQuota, qlookup, h]
  | cons p rest ih =>
    obtain ⟨k0, c0⟩ := p
    by_cases h : k0 = k
    · subst h
      by_cases h' : k0 = k' <;> simp [setQuota, qlookup, h']
    · by_cases h' : k0 = k'
      · subst h'
        have hne : ¬ k = k0 := fun e => h e.symm
        simp [setQuota, qlookup, h, hne]
      · simp [setQuota, qlookup, h, h', ih]

/-- An invariant state never reads a negative counter. -/
theorem countFor_nonneg (st : DiscountState) (k : String) (h : QuotaInv st) :
    0 ≤ countFor st k := by
  unfold countFor
  cases hq : qlookup st.quotas k with
  | none => simp
  | some c => simpa using (h k c hq).1

/-- An invariant state never reads a counter above the limit. -/
theorem countFor_le_limit (st : DiscountState) (k : String) (h : QuotaInv st) :
    countFor st k ≤ QuotaLimit := by
  unfold countFor
  cases hq : qlookup st.quotas k with
  | none => simp [QuotaLimit]
  | some c => simpa using (h k c hq).2

/-- Unfolded form of the reservation transaction. -/
theorem runQuotaTransaction_eq (now : Nat) (event : OrderCreated) (st : DiscountState) :
    runQuotaTransaction now event st =
      if countFor st (dateKeyIST now) < QuotaLimit then
        { quotas := setQuota st.quotas (dateKeyIST now) (countFor st (dateKeyIST now) + 1),
          events := st.events ++
            [StoredEvent.discountReserved
              { base := { trace_id := event.base.trace_id,
                          type := EventTypeDiscountReserved, timestamp := now },
                order_id := event.order_id, status := "Approved" }] }
      else
        { quotas := st.quotas,
          events := st.events ++
            [StoredEvent.discountRejected
              { base := { trace_id := event.base.trace_id,
                          type := EventTypeDiscountRejected, timestamp := now },
                order_id := event.order_id, status := "Rejected",
                reason := "Daily discount quota reached. Please try again tomorrow." }] } := rfl

/-- Unfolded form of the release transaction. -/
theorem processReleaseEvent_eq (now : Nat) (r : DiscountRelease) (st : DiscountState) :
    processReleaseEvent now r st =
      match qlookup st.quotas (dateKeyIST now) with
      | none => st
      | some count =>
        if count > 0 then
          { quotas := setQuota st.quotas (dateKeyIST now) (count - 1), events := st.events }
        else st := rfl

/-- The reservation transaction preserves the counter invariant. -/
theorem quotaInv_runQuota (now : Nat) (e : OrderCreated) (st : DiscountState)
    (h : QuotaInv st) : QuotaInv (runQuotaTransaction now e st) := by
  have hnn := countFor_nonneg st (dateKeyIST now) h
  have hQ : QuotaLimit = 100 := rfl
  rw [runQuotaTransaction_eq]
  by_cases hc : countFor st (dateKeyIST now) < QuotaLimit
  · simp only [hc, if_true]
    intro k c hq
    simp only at hq
    rw [qlookup_setQuota] at hq
    by_cases hk : dateKeyIST now = k
    · subst hk
      simp at hq
      omega
    · simp [hk] at hq
      exact h k c hq
  · simp only [hc, if_false]
    intro k c hq
    exact h k c hq

/-- The release transaction preserves the counter invariant. -/
theorem quotaInv_release (now : Nat) (r : DiscountRelease) (st : DiscountState)
    (h : QuotaInv st) : QuotaInv (processReleaseEvent now r st) := by
  rw [processReleaseEvent_eq]
  cases hq : qlookup st.quotas (dateKeyIST now) with
  | none => exact h
  | some c =>
    obtain ⟨h1, h2⟩ := h _ _ hq
    have hQ : QuotaLimit = 100 := rfl
    by_cases hpos : c > 0
    · simp only [hpos, if_true]
      intro k c' h'
      simp only at h'
      rw [qlookup_setQuota] at h'
      by_cases hk : dateKeyIST now = k
      · subst hk
        simp at h'
        omega
      · simp [hk] at h'
        exact h k c' h'
    · simp only [hpos, if_false]
      exact h

/-- processOrderEvent preserves the counter invariant. -/
theorem quotaInv_processOrder (now : Nat) (e : OrderCreated) (st : DiscountState)
    (h : QuotaInv st) : QuotaInv (processOrderEvent now e st) := by
  unfold processOrderEvent
  cases e.is_r1_eligible with
  | false => simpa using h
  | true =>
    cases checkDecisionExists st.events e.order_id with
    | false => simpa using quotaInv_runQuota now e st h
    | true => simpa using h

/-- One subscription loop iteration preserves the counter invariant. -/
theorem quotaInv_discountStep (now : Nat) (ev : StoredEvent) (st : DiscountState)
    (h : QuotaInv st) : QuotaInv (discountStep now ev st) := by
  cases ev with
  | orderCreated e => exact quotaInv_processOrder now e st h
  | discountRelease e => exact quotaInv_release now e st h
  | discountReserved e => exact h
  | discountRejected e => exact h

/-- Any sequence of delivered events preserves the counter invariant. -/
theorem quotaInv_runLedger (steps : List (Nat × StoredEvent)) (st : DiscountState)
    (h : QuotaInv st) : QuotaInv (runLedger steps st) := by
  induction steps generalizing st with
  | nil => exact h
  | cons p rest ih =>
    exact ih (discountStep p.1 p.2 st) (quotaInv_discountStep p.1 p.2 st h)

/-- Grant events counted over an append. -/
theorem reservedCount_append (es es2 : List StoredEvent) :
    reservedCount (es ++ es2) = reservedCount es + reservedCount es2 := by
  simp [reservedCount, List.filter_append]

/-- countFor unfolds on a structure literal. -/
theorem countFor_mk (es : List StoredEvent) (qs : List (String × Int)) (k : String) :
    countFor { events := es, quotas := qs } k = (qlookup qs k).getD 0 := rfl

/-- Refolding countFor. -/
theorem countFor_def (st : DiscountState) (k : String) :
    (qlookup st.quotas k).getD 0 = countFor st k := rfl

/-- quotaSlack unfolds to limit minus counter. -/
theorem quotaSlack_eq (st : DiscountState) (k : String) :
    quotaSlack st k = (QuotaLimit - countFor st k).toNat := rfl

/-- A singleton grant event counts one. -/
theorem reservedCount_single_reserved (d : DiscountReserved) :
    reservedCount [StoredEvent.discountReserved d] = 1 := rfl

/-- A singleton denial event counts zero. -/
theorem reservedCount_single_rejected (d : DiscountRejected) :
    reservedCount [StoredEvent.discountRejected d] = 0 := rfl

/-- The counter value after the reservation transaction, on the key of the
current date. -/
theorem countFor_runQuota (now : Nat) (e : OrderCreated) (st : DiscountState) :
    countFor (runQuotaTransaction now e st) (dateKeyIST now) =
      if countFor st (dateKeyIST now) < QuotaLimit then
        countFor st (dateKeyIST now) + 1
      else countFor st (dateKeyIST now) := by
  rw [runQuotaTransaction_eq]
  by_cases hc : countFor st (dateKeyIST now) < QuotaLimit
  · simp only [hc, if_true]
    rw [countFor_mk, qlookup_setQuota]
    simp
  · simp only [hc, if_false]
    rfl

/-- One order event never increases grant count plus slack. -/
theorem processOrderEvent_potential (now : Nat) (e : OrderCreated) (st : DiscountState) :
    reservedCount (processOrderEvent now e st).events
        + quotaSlack (processOrderEvent now e st) (dateKeyIST now)
      ≤ reservedCount st.events + quotaSlack st (dateKeyIST now) := by
  have hQ : QuotaLimit = 100 := rfl
  unfold processOrderEvent
  cases e.is_r1_eligible with
  | false => simp
  | true =>
    cases checkDecisionExists st.events e.order_id with
    | true => simp
    | false =>
      simp only [Bool.not_true, Bool.false_eq_true, if_false, if_true, cond_true, cond_false]
      rw [runQuotaTransaction_eq]
      by_cases hc : countFor st (dateKeyIST now) < QuotaLimit
      · simp only [hc, if_true]
        rw [quotaSlack_eq, quotaSlack_eq]
        rw [reservedCount_append, reservedCount_single_reserved]
        rw [countFor_mk, qlookup_setQuota]
        simp only [if_true, eq_self_iff_true, Option.getD_some]
        omega
      · simp only [hc, if_false]
        rw [quotaSlack_eq, quotaSlack_eq]
        rw [reservedCount_append, reservedCount_single_rejected]
        rw [countFor_mk, countFor_def]
        omega

/-- A batch of order events never increases grant count plus slack. -/
theorem processOrders_potential (now : Nat) (reqs : List OrderCreated) (st : DiscountState) :
    reservedCount (processOrders now reqs st).events
        + quotaSlack (processOrders now reqs st) (dateKeyIST now)
      ≤ reservedCount st.events + quotaSlack st (dateKeyIST now) := by
  induction reqs generalizing st with
  | nil => simp [processOrders]
  | cons e rest ih =>
    have hstep : processOrders now (e :: rest) st
        = processOrders now rest (processOrderEvent now e st) := by
      simp [processOrders]
    rw [hstep]
    exact le_trans (ih (processOrderEvent now e st)) (processOrderEvent_potential now e st)

/-- Decisions counted over an append. -/
theorem decisionsFor_append (es es2 : List StoredEvent) (oid : String) :
    decisionsFor (es ++ es2) oid = decisionsFor es oid + decisionsFor es2 oid := by
  simp [decisionsFor, List.filter_append]

/-- The idempotency query result agrees with the decision count. -/
theorem checkDecision_count (es : List StoredEvent) (oid : String) :
    checkDecisionExists es oid = decide (0 < decisionsFor es oid) := by
  induction es with
  | nil => simp [checkDecisionExists, decisionsFor]
  | cons ev rest ih =>
    cases h : isDecisionFor oid ev with
    | true => simp [checkDecisionExists, decisionsFor, h]
    | false =>
      simp only [checkDecisionExists, decisionsFor, List.any_cons, h, Bool.false_or,
        List.filter_cons, Bool.false_eq_true, if_false] at ih ⊢
      exact ih

/-- Events appended by a granting reservation transaction. -/
theorem runQuota_events_grant (now : Nat) (e : OrderCreated) (st : DiscountState)
    (hc : countFor st (dateKeyIST now) < QuotaLimit) :
    (runQuotaTransaction now e st).events = st.events ++
      [StoredEvent.discountReserved
        { base := { trace_id := e.base.trace_id,
                    type := EventTypeDiscountReserved, timestamp := now },
          order_id := e.order_id, status := "Approved" }] := by
  rw [runQuotaTransaction_eq]
  simp [hc]

/-- Quota write of a granting reservation transaction. -/
theorem runQuota_quotas_grant (now : Nat) (e : OrderCreated) (st : DiscountState)
    (hc : countFor st (dateKeyIST now) < QuotaLimit) :
    (runQuotaTransaction now e st).quotas
      = setQuota st.quotas (dateKeyIST now) (countFor st (dateKeyIST now) + 1) := by
  rw [runQuotaTransaction_eq]
  simp [hc]

/-- Events appended by a denying reservation transaction. -/
theorem runQuota_events_deny (now : Nat) (e : OrderCreated) (st : DiscountState)
    (hc : ¬ countFor st (dateKeyIST now) < QuotaLimit) :
    (runQuotaTransaction now e st).events = st.events ++
      [StoredEvent.discountRejected
        { base := { trace_id := e.base.trace_id,
                    type := EventTypeDiscountRejected, timestamp := now },
          order_id := e.order_id, status := "Rejected",
          reason := "Daily discount quota reached. Please try again tomorrow." }] := by
  rw [runQuotaTransaction_eq]
  simp [hc]

/-- A denying reservation transaction leaves the counters unchanged. -/
theorem runQuota_quotas_deny (now : Nat) (e : OrderCreated) (st : DiscountState)
    (hc : ¬ countFor st (dateKeyIST now) < QuotaLimit) :
    (runQuotaTransaction now e st).quotas = st.quotas := by
  rw [runQuotaTransaction_eq]
  simp [hc]

/-- Release on an absent quota document is a no-op. -/
theorem processReleaseEvent_none (now : Nat) (r : DiscountRelease) (st : DiscountState)
    (hq : qlookup st.quotas (dateKeyIST now) = none) :
    processReleaseEvent now r st = st := by
  rw [processReleaseEvent_eq, hq]

/-- Release on a positive counter decrements it by one. -/
theorem processReleaseEvent_pos (now : Nat) (r : DiscountRelease) (st : DiscountState) (c : Int)
    (hq : qlookup st.quotas (dateKeyIST now) = some c) (hpos : c > 0) :
    processReleaseEvent now r st
      = { events := st.events, quotas := setQuota st.quotas (dateKeyIST now) (c - 1) } := by
  rw [processReleaseEvent_eq, hq]
  simp [hpos]

/-- Release on a non-positive counter is a no-op. -/
theorem processReleaseEvent_nonpos (now : Nat) (r : DiscountRelease) (st : DiscountState) (c : Int)
    (hq : qlookup st.quotas (dateKeyIST now) = some c) (hpos : ¬ c > 0) :
    processReleaseEvent now r st = st := by
  rw [processReleaseEvent_eq, hq]
  simp [hpos]

/-- The reservation transaction appends exactly one decision for the
processed order id, and none for any other id. -/
theorem decisionsFor_runQuota (now : Nat) (e : OrderCreated) (st : DiscountState) (oid : String) :
    decisionsFor (runQuotaTransaction now e st).events oid
      = decisionsFor st.events oid + (if e.order_id = oid then 1 else 0) := by
  by_cases hc : countFor st (dateKeyIST now) < QuotaLimit
  · rw [runQuota_events_grant now e st hc, decisionsFor_append]
    by_cases hid : e.order_id = oid
    · subst hid
      simp [decisionsFor, isDecisionFor, StoredEvent.orderIdField, StoredEvent.typeField,
        EventTypeDiscountReserved]
    · simp [decisionsFor, isDecisionFor, StoredEvent.orderIdField, StoredEvent.typeField, hid]
  · rw [runQuota_events_deny now e st hc, decisionsFor_append]
    by_cases hid : e.order_id = oid
    · subst hid
      simp [decisionsFor, isDecisionFor, StoredEvent.orderIdField, StoredEvent.typeField,
        EventTypeDiscountRejected]
    · simp [decisionsFor, isDecisionFor, StoredEvent.orderIdField, StoredEvent.typeField, hid]

/-- The release transaction never appends events. -/
theorem events_release (now : Nat) (r : DiscountRelease) (st : DiscountState) :
    (processReleaseEvent now r st).events = st.events := by
  cases hq : qlookup st.quotas (dateKeyIST now) with
  | none => rw [processReleaseEvent_none now r st hq]
  | some c =>
    by_cases hpos : c > 0
    · rw [processReleaseEvent_pos now r st c hq hpos]
    · rw [processReleaseEvent_nonpos now r st c hq hpos]

/-- The counter after n same-day releases: decremented to at most zero. -/
theorem releaseTimes_count (now : Nat) (r : DiscountRelease) (n : Nat) (st : DiscountState)
    (h : 0 ≤ countFor st (dateKeyIST now)) :
    countFor (releaseTimes now r n st) (dateKeyIST now)
      = max (countFor st (dateKeyIST now) - n) 0 := by
  induction n generalizing st with
  | zero =>
    simp only [releaseTimes, Nat.cast_zero, sub_zero]
    omega
  | succ n ih =>
    show countFor (releaseTimes now r n (processReleaseEvent now r st)) (dateKeyIST now) = _
    cases hq : qlookup st.quotas (dateKeyIST now) with
    | none =>
      have hc : countFor st (dateKeyIST now) = 0 := by
        unfold countFor
        rw [hq]
        rfl
      rw [processReleaseEvent_none now r st hq, ih st h]
      omega
    | some c =>
      have hc : countFor st (dateKeyIST now) = c := by
        unfold countFor
        rw [hq]
        rfl
      by_cases hpos : c > 0
      · rw [processReleaseEvent_pos now r st c hq hpos]
        have hcnt :
            countFor ⟨st.events, setQuota st.quotas (dateKeyIST now) (c - 1)⟩ (dateKeyIST now)
              = c - 1 := by
          rw [countFor_mk, qlookup_setQuota]
          simp
        rw [ih _ (by rw [hcnt]; omega), hcnt]
        omega
      · rw [processReleaseEvent_nonpos now r st c hq hpos, ih st h]
        omega

/-!
Claim theorems.
-/

/-- C1: every committed state keeps 0 <= reserved <= quotaLimit for each
daily counter; a reservation transaction that would push the counter
above the limit instead appends a denial and leaves the counter
unchanged; and over any batch of requests processed from the empty store
against the limit of 100, at most 100 grant events are produced, while
at a full counter every further eligible undecided request is denied. -/
theorem C1_quota_invariant_and_cap
    (steps : List (Nat × StoredEvent)) (st stF : DiscountState)
    (now : Nat) (e : OrderCreated) (reqs : List OrderCreated)
    (hinv : QuotaInv st)
    (hF : ¬ countFor stF (dateKeyIST now) < QuotaLimit) :
    QuotaInv (runLedger steps st)
    ∧ (runQuotaTransaction now e stF).quotas = stF.quotas
    ∧ (runQuotaTransaction now e stF).events = stF.events ++
        [StoredEvent.discountRejected
          { base := { trace_id := e.base.trace_id,
                      type := EventTypeDiscountRejected, timestamp := now },
            order_id := e.order_id, status := "Rejected",
            reason := "Daily discount quota reached. Please try again tomorrow." }]
    ∧ reservedCount (processOrders now reqs emptyState).events ≤ 100
    ∧ (∀ e2 : OrderCreated, e2.is_r1_eligible = true →
        checkDecisionExists stF.events e2.order_id = false →
        (processOrderEvent now e2 stF).quotas = stF.quotas
        ∧ (processOrderEvent now e2 stF).events = stF.events ++
            [StoredEvent.discountRejected
              { base := { trace_id := e2.base.trace_id,
                          type := EventTypeDiscountRejected, timestamp := now },
                order_id := e2.order_id, status := "Rejected",
                reason := "Daily discount quota reached. Please try again tomorrow." }]) := by
  refine ⟨quotaInv_runLedger steps st hinv,
    runQuota_quotas_deny now e stF hF,
    runQuota_events_deny now e stF hF, ?_, ?_⟩
  · have hpot := processOrders_potential now reqs emptyState
    have h1 : reservedCount emptyState.events = 0 := rfl
    have h2 : quotaSlack emptyState (dateKeyIST now) = 100 := rfl
    omega
  · intro e2 helig hundec
    have hpe : processOrderEvent now e2 stF = runQuotaTransaction now e2 stF := by
      simp [processOrderEvent, helig, hundec]
    rw [hpe]
    exact ⟨runQuota_quotas_deny now e2 stF hF, runQuota_events_deny now e2 stF hF⟩

/-- Witness for C1 at concrete inputs: one step from the empty store, a
denial at a full counter, and the cap over a singleton batch. -/
theorem C1_quota_invariant_and_cap_witness :
    QuotaInv (runLedger [(0, StoredEvent.orderCreated sampleOrder)] emptyState)
    ∧ (runQuotaTransaction 0 sampleOrder fullState).quotas = fullState.quotas
    ∧ reservedCount (processOrders 0 [sampleOrder] emptyState).events ≤ 100
    ∧ (processOrderEvent 0 sampleOrder fullState).quotas = fullState.quotas := by
  have h := C1_quota_invariant_and_cap [(0, StoredEvent.orderCreated sampleOrder)]
    emptyState fullState 0 sampleOrder [sampleOrder]
    (by intro k c hk; simp [emptyState, qlookup] at hk)
    (by decide)
  exact ⟨h.1, h.2.1, h.2.2.2.1, (h.2.2.2.2 sampleOrder rfl (by decide)).1⟩

/-- C2: the reservation transaction reads the counter for the current date
key, treating an absent document as zero; below the limit it writes
reserved+1 and appends a DiscountReserved event, otherwise it leaves the
counter unchanged and appends a DiscountRejected event with exactly the
fixed reason; both decision events carry the order id and trace id of
the processed event. -/
theorem C2_reservation_transaction
    (now : Nat) (e : OrderCreated) (stA stG stD : DiscountState)
    (hA : qlookup stA.quotas (dateKeyIST now) = none)
    (hG : countFor stG (dateKeyIST now) < QuotaLimit)
    (hD : ¬ countFor stD (dateKeyIST now) < QuotaLimit) :
    (runQuotaTransaction now e stA).quotas = setQuota stA.quotas (dateKeyIST now) 1
    ∧ (runQuotaTransaction now e stA).events = stA.events ++
        [StoredEvent.discountReserved
          { base := { trace_id := e.base.trace_id,
                      type := EventTypeDiscountReserved, timestamp := now },
            order_id := e.order_id, status := "Approved" }]
    ∧ (runQuotaTransaction now e stG).quotas
        = setQuota stG.quotas (dateKeyIST now) (countFor stG (dateKeyIST now) + 1)
    ∧ (runQuotaTransaction now e stG).events = stG.events ++
        [StoredEvent.discountReserved
          { base := { trace_id := e.base.trace_id,
                      type := EventTypeDiscountReserved, timestamp := now },
            order_id := e.order_id, status := "Approved" }]
    ∧ (runQuotaTransaction now e stD).quotas = stD.quotas
    ∧ (runQuotaTransaction now e stD).events = stD.events ++
        [StoredEvent.discountRejected
          { base := { trace_id := e.base.trace_id,
                      type := EventTypeDiscountRejected, timestamp := now },
            order_id := e.order_id, status := "Rejected",
            reason := "Daily discount quota reached. Please try again tomorrow." }] := by
  have hA0 : countFor stA (dateKeyIST now) = 0 := by
    unfold countFor
    rw [hA]
    rfl
  have hAlt : countFor stA (dateKeyIST now) < QuotaLimit := by
    rw [hA0]
    decide
  refine ⟨?_, runQuota_events_grant now e stA hAlt,
    runQuota_quotas_grant now e stG hG, runQuota_events_grant now e stG hG,
    runQuota_quotas_deny now e stD hD, runQuota_events_deny now e stD hD⟩
  rw [runQuota_quotas_grant now e stA hAlt, hA0]
  norm_num

/-- Witness for C2 at concrete inputs: absent document, counter 5, and a
full counter. -/
theorem C2_reservation_transaction_witness :
    (runQuotaTransaction 0 sampleOrder emptyState).quotas
        = setQuota emptyState.quotas (dateKeyIST 0) 1
    ∧ (runQuotaTransaction 0 sampleOrder midState).quotas
        = setQuota midState.quotas (dateKeyIST 0) (countFor midState (dateKeyIST 0) + 1)
    ∧ (runQuotaTransaction 0 sampleOrder fullState).quotas = fullState.quotas := by
  have h := C2_reservation_transaction 0 sampleOrder emptyState midState fullState
    (by decide) (by decide) (by decide)
  exact ⟨h.1, h.2.2.1, h.2.2.2.2.1⟩

/-- C3: a grant followed by a release for the same request on the same
date key restores the counter to its value before the grant (net zero),
and the counter is never negative at any committed state reached from an
invariant state. -/
theorem C3_grant_release_net_zero
    (now : Nat) (e : OrderCreated) (r : DiscountRelease) (st st2 : DiscountState)
    (steps : List (Nat × StoredEvent)) (k2 : String)
    (hinv : QuotaInv st) (hlt : countFor st (dateKeyIST now) < QuotaLimit)
    (hinv2 : QuotaInv st2) :
    countFor (processReleaseEvent now r (runQuotaTransaction now e st)) (dateKeyIST now)
      = countFor st (dateKeyIST now)
    ∧ 0 ≤ countFor (runLedger steps st2) k2 := by
  constructor
  · have hnn := countFor_nonneg st (dateKeyIST now) hinv
    have hq' : qlookup (runQuotaTransaction now e st).quotas (dateKeyIST now)
        = some (countFor st (dateKeyIST now) + 1) := by
      rw [runQuota_quotas_grant now e st hlt, qlookup_setQuota]
      simp
    have hrel := processReleaseEvent_pos now r (runQuotaTransaction now e st)
      (countFor st (dateKeyIST now) + 1) hq' (by omega)
    rw [hrel, countFor_mk, qlookup_setQuota]
    simp
  · exact countFor_nonneg _ k2 (quotaInv_runLedger steps st2 hinv2)

/-- Witness for C3: grant then release from the empty store at time 0. -/
theorem C3_grant_release_net_zero_witness :
    countFor (processReleaseEvent 0 sampleRelease (runQuotaTransaction 0 sampleOrder emptyState))
        (dateKeyIST 0)
      = countFor emptyState (dateKeyIST 0)
    ∧ 0 ≤ countFor (runLedger [(0, StoredEvent.orderCreated sampleOrder)] emptyState) "0" := by
  have h := C3_grant_release_net_zero 0 sampleOrder sampleRelease emptyState emptyState
    [(0, StoredEvent.orderCreated sampleOrder)] "0"
    (by intro k c hk; simp [emptyState, qlookup] at hk)
    (by decide)
    (by intro k c hk; simp [emptyState, qlookup] at hk)
  exact h

/-- C4: the release handler keys the transaction on the current date and
ignores the event payload entirely; an absent document or a zero counter
is a no-op; a positive counter is decremented by one with no event
appended; and n releases decrement the counter by at most n, flooring at
zero, so it never becomes negative. -/
theorem C4_release_handler
    (now : Nat) (r r' : DiscountRelease) (st stA stZ stP : DiscountState) (c : Int) (n : Nat)
    (hA : qlookup stA.quotas (dateKeyIST now) = none)
    (hZ : qlookup stZ.quotas (dateKeyIST now) = some 0)
    (hP : qlookup stP.quotas (dateKeyIST now) = some c) (hpos : 0 < c)
    (hnn : 0 ≤ countFor st (dateKeyIST now)) :
    processReleaseEvent now r st = processReleaseEvent now r' st
    ∧ processReleaseEvent now r stA = stA
    ∧ processReleaseEvent now r stZ = stZ
    ∧ (processReleaseEvent now r stP).quotas = setQuota stP.quotas (dateKeyIST now) (c - 1)
    ∧ (processReleaseEvent now r stP).events = stP.events
    ∧ countFor (releaseTimes now r n st) (dateKeyIST now)
        = max (countFor st (dateKeyIST now) - n) 0 := by
  refine ⟨rfl, processReleaseEvent_none now r stA hA,
    processReleaseEvent_nonpos now r stZ 0 hZ (by decide), ?_, ?_,
    releaseTimes_count now r n st hnn⟩
  · rw [processReleaseEvent_pos now r stP c hP hpos]
  · rw [processReleaseEvent_pos now r stP c hP hpos]

/-- Witness for C4: two distinct release payloads, the absent, zero and
positive counter cases, and three releases against counter 5. -/
theorem C4_release_handler_witness :
    processReleaseEvent 0 sampleRelease midState = processReleaseEvent 0 sampleRelease2 midState
    ∧ processReleaseEvent 0 sampleRelease emptyState = emptyState
    ∧ processReleaseEvent 0 sampleRelease zeroState = zeroState
    ∧ (processReleaseEvent 0 sampleRelease midState).quotas
        = setQuota midState.quotas (dateKeyIST 0) (5 - 1)
    ∧ countFor (releaseTimes 0 sampleRelease 3 midState) (dateKeyIST 0)
        = max (countFor midState (dateKeyIST 0) - 3) 0 := by
  have h := C4_release_handler 0 sampleRelease sampleRelease2 midState emptyState zeroState
    midState 5 3 (by decide) (by decide) (by decide) (by decide) (by decide)
  exact ⟨h.1, h.2.1, h.2.2.1, h.2.2.2.1, h.2.2.2.2.2⟩

/-- C5: a stored decision for an order id makes reprocessing a no-op, via
the idempotency query; replaying the same eligible BookingRequested
event twice from a store without a prior decision yields exactly one
decision event for that request id, the second pass changing nothing. -/
theorem C5_idempotent_decision
    (now1 now2 now3 : Nat) (e e3 : OrderCreated) (st st3 : DiscountState)
    (helig : e.is_r1_eligible = true)
    (h0 : decisionsFor st.events e.order_id = 0)
    (hex : checkDecisionExists st3.events e3.order_id = true) :
    processOrderEvent now3 e3 st3 = st3
    ∧ decisionsFor (processOrderEvent now2 e (processOrderEvent now1 e st)).events e.order_id = 1
    ∧ processOrderEvent now2 e (processOrderEvent now1 e st) = processOrderEvent now1 e st := by
  have hskip : processOrderEvent now3 e3 st3 = st3 := by
    unfold processOrderEvent
    rw [hex]
    cases e3.is_r1_eligible <;> simp
  have hfalse : checkDecisionExists st.events e.order_id = false := by
    rw [checkDecision_count, h0]
    simp
  have hstep1 : processOrderEvent now1 e st = runQuotaTransaction now1 e st := by
    simp [processOrderEvent, helig, hfalse]
  have hcount1 : decisionsFor (runQuotaTransaction now1 e st).events e.order_id = 1 := by
    rw [decisionsFor_runQuota, h0]
    simp
  have hex2 : checkDecisionExists (runQuotaTransaction now1 e st).events e.order_id = true := by
    rw [checkDecision_count, hcount1]
    simp
  have hstep2 : processOrderEvent now2 e (runQuotaTransaction now1 e st)
      = runQuotaTransaction now1 e st := by
    unfold processOrderEvent
    rw [hex2]
    cases e.is_r1_eligible <;> simp
  refine ⟨hskip, ?_, ?_⟩
  · rw [hstep1, hstep2]
    exact hcount1
  · rw [hstep1, hstep2]

/-- Witness for C5: a decided store is untouched, and replaying sampleOrder
twice from the empty store yields exactly one decision. -/
theorem C5_idempotent_decision_witness :
    processOrderEvent 2 sampleOrder decidedState = decidedState
    ∧ decisionsFor ((processOrderEvent 1 sampleOrder
        (processOrderEvent 0 sampleOrder emptyState)).events) sampleOrder.order_id = 1
    ∧ processOrderEvent 1 sampleOrder (processOrderEvent 0 sampleOrder emptyState)
        = processOrderEvent 0 sampleOrder emptyState := by
  have h := C5_idempotent_decision 0 1 2 sampleOrder sampleOrder emptyState decidedState
    rfl rfl (by decide)
  exact h

/-- C6: a non-eligible request appends no event and completes immediately,
FAILED when the failure simulation flag is set and otherwise CONFIRMED
at the full price; and the ledger takes no action on a non-eligible
BookingRequested event. -/
theorem C6_non_eligible_untouched
    (req : OrderRequest) (orderID traceID : String) (now : Nat) (appendOk : Bool)
    (arrival : Option Decision) (now2 : Nat) (e2 : OrderCreated) (st2 : DiscountState)
    (hne : req.is_r1_eligible = false) (hne2 : e2.is_r1_eligible = false) :
    (handleOrder req orderID traceID now appendOk arrival).2 = []
    ∧ (handleOrder req orderID traceID now appendOk arrival).1 =
        (if req.simulate_failure then
          HandlerOutput.json 500
            { order_id := orderID, status := "FAILED",
              message := "Payment processing failed (simulated)." }
        else
          HandlerOutput.json 200
            { order_id := orderID, status := "CONFIRMED",
              message := "Booking confirmed! Total: ₹" ++ fmtPrice req.final_price
                ++ " (No discount applied)" })
    ∧ processOrderEvent now2 e2 st2 = st2 := by
  refine ⟨?_, ?_, ?_⟩
  · unfold handleOrder
    rw [hne]
    cases hsf : req.simulate_failure <;> simp
  · unfold handleOrder
    rw [hne]
    cases hsf : req.simulate_failure <;> simp
  · unfold processOrderEvent
    rw [hne2]
    simp

/-- Witness for C6: the sample non-eligible request and order event. -/
theorem C6_non_eligible_untouched_witness :
    (handleOrder sampleNERequest "order-2" "trace-2" 0 true none).2 = []
    ∧ processOrderEvent 0 sampleOrderNE midState = midState := by
  have h := C6_non_eligible_untouched sampleNERequest "order-2" "trace-2" 0 true none
    0 sampleOrderNE midState rfl rfl
  exact ⟨h.1, h.2.2⟩

/-- C7: on a grant decision for an eligible pending request, the handler
with the failure simulation flag set appends a DiscountRelease
compensation event for that order id and responds FAILED with the
message reporting the quota release; without the flag it responds
CONFIRMED. -/
theorem C7_compensation_on_failure_flag
    (req : OrderRequest) (orderID traceID : String) (now : Nat) (d : DiscountReserved)
    (helig : req.is_r1_eligible = true) :
    handleOrder req orderID traceID now true (some (Decision.reserved d)) =
      (if req.simulate_failure then
        (HandlerOutput.json 500
          { order_id := orderID, status := "FAILED",
            message := "Payment processing failed. Discount quota has been released." },
         [StoredEvent.orderCreated (mkOrderCreated req orderID traceID now),
          StoredEvent.discountRelease
            { base := { trace_id := traceID, type := EventTypeDiscountRelease,
                        timestamp := now },
              order_id := orderID,
              reason := "Payment Processing Failed (Simulated Failure)" }])
      else
        (HandlerOutput.json 200
          { order_id := orderID, status := "CONFIRMED",
            message := "Booking confirmed! Final price: ₹" ++ fmtPrice req.final_price
              ++ " (12% discount applied)" },
         [StoredEvent.orderCreated (mkOrderCreated req orderID traceID now)])) := by
  unfold handleOrder
  rw [helig]
  cases hsf : req.simulate_failure <;> simp

/-- Witness for C7: the eligible failing request receives a grant. -/
theorem C7_compensation_on_failure_flag_witness :
    handleOrder sampleFailRequest "order-1" "trace-1" 0 true
        (some (Decision.reserved sampleReserved)) =
      (HandlerOutput.json 500
        { order_id := "order-1", status := "FAILED",
          message := "Payment processing failed. Discount quota has been released." },
       [StoredEvent.orderCreated (mkOrderCreated sampleFailRequest "order-1" "trace-1" 0),
        StoredEvent.discountRelease
          { base := { trace_id := "trace-1", type := EventTypeDiscountRelease,
                      timestamp := 0 },
            order_id := "order-1",
            reason := "Payment Processing Failed (Simulated Failure)" }]) := by
  have h := C7_compensation_on_failure_flag sampleFailRequest "order-1" "trace-1" 0
    sampleReserved rfl
  simpa using h

/-- C8: on a denial decision for an eligible pending request, the handler
responds REJECTED with the reason string of the decision surfaced
verbatim as the response message. -/
theorem C8_denial_reason_verbatim
    (req : OrderRequest) (orderID traceID : String) (now : Nat) (d : DiscountRejected)
    (helig : req.is_r1_eligible = true) :
    handleOrder req orderID traceID now true (some (Decision.rejected d)) =
      (HandlerOutput.json 429
        { order_id := orderID, status := "REJECTED", message := d.reason },
       [StoredEvent.orderCreated (mkOrderCreated req orderID traceID now)]) := by
  unfold handleOrder
  rw [helig]
  simp

/-- Witness for C8: the sample denial is surfaced verbatim. -/
theorem C8_denial_reason_verbatim_witness :
    handleOrder sampleOkRequest "order-1" "trace-1" 0 true
        (some (Decision.rejected sampleRejected)) =
      (HandlerOutput.json 429
        { order_id := "order-1", status := "REJECTED",
          message := "Daily discount quota reached. Please try again tomorrow." },
       [StoredEvent.orderCreated (mkOrderCreated sampleOkRequest "order-1" "trace-1" 0)]) := by
  have h := C8_denial_reason_verbatim sampleOkRequest "order-1" "trace-1" 0 sampleRejected rfl
  simpa using h

/-- C9 counterexample: a decision document that passes the order service
subscription filter (its type field is the string DiscountReserved) but
has no order_id field makes the listener body fail its unchecked string
type assertion, a runtime panic, refuting that the subscription loops
handle any event document with missing or mistyped fields without
panicking. -/
theorem C9_counterexample_listener_panics :
    decisionFilter [("type", FsVal.str "DiscountReserved")] = true
    ∧ listenStepDoc [("type", FsVal.str "DiscountReserved")] []
        = Except.error Panic.typeAssertion := by
  exact ⟨rfl, rfl⟩

/-- C9 amended: a document whose type field is a string never panics the
discount service loop, and a decode failure there is dropped with the
state unchanged; the order service loop does not panic provided both
its type and its order_id fields are strings (a document with a missing
or non-string order_id panics it, per the counterexample). -/
theorem C9_malformed_events_amended
    (now : Nat) (docT docO docR docL : FsDoc) (st : DiscountState)
    (t tL oidL msgO msgR : String) (reg : List String)
    (hT : getField docT "type" = some (FsVal.str t))
    (hO : getField docO "type" = some (FsVal.str EventTypeOrderCreated))
    (hOd : decodeOrderCreated docO = Except.error msgO)
    (hR : getField docR "type" = some (FsVal.str EventTypeDiscountRelease))
    (hRd : decodeDiscountRelease docR = Except.error msgR)
    (hL : getField docL "type" = some (FsVal.str tL))
    (hLo : getField docL "order_id" = some (FsVal.str oidL)) :
    (∃ st', discountStepDoc now docT st = Except.ok st')
    ∧ discountStepDoc now docO st = Except.ok st
    ∧ discountStepDoc now docR st = Except.ok st
    ∧ (∃ res, listenStepDoc docL reg = Except.ok res) := by
  refine ⟨?_, ?_, ?_, ?_⟩
  · unfold discountStepDoc
    rw [hT]
    simp only [asString]
    by_cases h1 : t = EventTypeOrderCreated
    · rw [if_pos h1]
      exact ⟨_, rfl⟩
    · rw [if_neg h1]
      by_cases h2 : t = EventTypeDiscountRelease
      · rw [if_pos h2]
        exact ⟨_, rfl⟩
      · rw [if_neg h2]
        exact ⟨_, rfl⟩
  · unfold discountStepDoc
    rw [hO]
    simp only [asString]
    rw [if_pos trivial]
    unfold processOrderDoc
    rw [hOd]
  · unfold discountStepDoc
    rw [hR]
    simp only [asString]
    rw [if_pos trivial]
    unfold processReleaseDoc
    rw [hRd]
    rw [if_neg (show ¬ EventTypeDiscountRelease = EventTypeOrderCreated by decide)]
  · unfold listenStepDoc
    rw [hL, hLo]
    simp only [asString]
    cases hr : reg.contains oidL with
    | false => simp [hr]
    | true =>
      by_cases ht : tL = EventTypeDiscountReserved
      · simp [hr, ht]
      · simp [hr, ht]

/-- Witness for the amended C9: an unknown string type, two documents that
fail decoding, and a well-formed decision document. -/
theorem C9_malformed_events_amended_witness :
    (∃ st', discountStepDoc 0 [("type", FsVal.str "Zzz")] emptyState = Except.ok st')
    ∧ discountStepDoc 0 [("type", FsVal.str "OrderCreated"), ("order_id", FsVal.int 5)]
        emptyState = Except.ok emptyState
    ∧ discountStepDoc 0 [("type", FsVal.str "DiscountRelease"), ("reason", FsVal.bool true)]
        emptyState = Except.ok emptyState
    ∧ (∃ res, listenStepDoc [("type", FsVal.str "DiscountReserved"),
        ("order_id", FsVal.str "order-1")] ["order-1"] = Except.ok res) := by
  exact C9_malformed_events_amended 0
    [("type", FsVal.str "Zzz")]
    [("type", FsVal.str "OrderCreated"), ("order_id", FsVal.int 5)]
    [("type", FsVal.str "DiscountRelease"), ("reason", FsVal.bool true)]
    [("type", FsVal.str "DiscountReserved"), ("order_id", FsVal.str "order-1")]
    emptyState "Zzz" "DiscountReserved" "order-1" "order_id" "reason" ["order-1"]
    rfl rfl rfl rfl rfl rfl rfl

/-- C10: the release handler decrements the current day's positive counter
for any DiscountRelease event without consulting the event log, so a
release correlated to an order id that was never granted (unknown, or
only ever denied) still reduces the counter by one. -/
theorem C10_release_ignores_grant_history
    (now : Nat) (r : DiscountRelease) (st st2 : DiscountState) (c c2 : Int)
    (hc : qlookup st.quotas (dateKeyIST now) = some c) (hpos : 0 < c)
    (hunknown : ∀ ev ∈ st.events, StoredEvent.orderIdField ev ≠ r.order_id)
    (hc2 : qlookup st2.quotas (dateKeyIST now) = some c2) (hpos2 : 0 < c2)
    (hnogrants : ∀ ev ∈ st2.events, isReservedEvent ev = false) :
    countFor (processReleaseEvent now r st) (dateKeyIST now) = c - 1
    ∧ countFor (processReleaseEvent now r st2) (dateKeyIST now) = c2 - 1 := by
  constructor
  · rw [processReleaseEvent_pos now r st c hc hpos, countFor_mk, qlookup_setQuota]
    simp
  · rw [processReleaseEvent_pos now r st2 c2 hc2 hpos2, countFor_mk, qlookup_setQuota]
    simp

/-- Witness for C10: a release for the unknown id ghost-order against
counter 5, and a release against a store holding only a denial. -/
theorem C10_release_ignores_grant_history_witness :
    countFor (processReleaseEvent 0 sampleRelease2 midState) (dateKeyIST 0) = 5 - 1
    ∧ countFor (processReleaseEvent 0 sampleRelease2
        ⟨[StoredEvent.discountRejected sampleRejected], [("0", 7)]⟩) (dateKeyIST 0) = 7 - 1 := by
  exact C10_release_ignores_grant_history 0 sampleRelease2 midState
    ⟨[StoredEvent.discountRejected sampleRejected], [("0", 7)]⟩ 5 7
    (by decide) (by decide) (by simp [midState]) (by decide) (by decide) (by decide)
